import Mathlib

/-!
Verification of the access-control and ticket-lifecycle core of a
role-based bug-tracker backend (Express/Mongoose).  The JavaScript
source is shallowly embedded: Mongoose documents become Lean structures,
the document store becomes an explicit `DB` value threaded through each
controller, and every controller action becomes a pure function
`DB → … → DB × Except ApiError α` whose error branches return the store
unchanged exactly where the source throws before persisting.
-/

namespace BugTracker

/-- Object ids are modelled as naturals; Mongoose compares them via
`toString()`, which is injective on ids, so id equality is faithful. -/
abbrev UserId := Nat
abbrev ProjectId := Nat
abbrev TicketId := Nat

/-- Timestamps (`Date`) modelled as naturals supplied by the caller. -/
abbrev Date := Nat

/-- Global user role (`User.role` enum in `models/User.js`). -/
inductive UserRole
  | USER
  | ADMIN
deriving DecidableEq, Repr

/-- Per-project member role (`Project.members[].role` enum). -/
inductive MemberRole
  | VIEWER
  | CONTRIBUTOR
  | MANAGER
deriving DecidableEq, Repr

/-- Project status enum from `models/Project.js`. -/
inductive ProjectStatus
  | PLANNING
  | ACTIVE
  | ON_HOLD
  | COMPLETED
  | ARCHIVED
deriving DecidableEq, Repr

/-- Project priority enum from `models/Project.js`. -/
inductive ProjectPriority
  | LOW
  | MEDIUM
  | HIGH
  | CRITICAL
deriving DecidableEq, Repr

/-- Ticket status enum from `models/Ticket.js`. -/
inductive TicketStatus
  | OPEN
  | IN_PROGRESS
  | RESOLVED
  | CLOSED
deriving DecidableEq, Repr

/-- Ticket priority enum from `models/Ticket.js`. -/
inductive TicketPriority
  | LOW
  | MEDIUM
  | HIGH
deriving DecidableEq, Repr

/-- Ticket type enum from `models/Ticket.js`. -/
inductive TicketType
  | BUG
  | FEATURE
  | ENHANCEMENT
  | TASK
deriving DecidableEq, Repr

/-- A user document (`models/User.js`; the fields the core logic reads). -/
structure User where
  id : UserId
  name : String
  email : String
  role : UserRole
  isActive : Bool
deriving DecidableEq, Repr

/-- One entry of `Project.members` (`models/Project.js` lines 45-59). -/
structure Member where
  user : UserId
  role : MemberRole
  joinedAt : Date
deriving DecidableEq, Repr

/-- A project document (`models/Project.js`). -/
structure Project where
  id : ProjectId
  name : String
  description : String
  createdBy : UserId
  isActive : Bool
  status : ProjectStatus
  priority : ProjectPriority
  endDate : Option Date
  members : List Member
deriving DecidableEq, Repr

/-- One entry of `Ticket.statusHistory` (`models/Ticket.js` lines 69-83). -/
structure HistoryEntry where
  status : TicketStatus
  changedBy : UserId
  changedAt : Date
  comment : Option String
deriving DecidableEq, Repr

/-- A ticket document (`models/Ticket.js`). -/
structure Ticket where
  id : TicketId
  title : String
  description : String
  status : TicketStatus
  priority : TicketPriority
  type : TicketType
  assignedTo : Option UserId
  project : ProjectId
  createdBy : UserId
  dueDate : Option Date
  estimatedHours : Option Nat
  actualHours : Nat
  tags : List String
  statusHistory : List HistoryEntry
  resolvedAt : Option Date
  closedAt : Option Date
deriving DecidableEq, Repr

/-- The document store: the three collections the core operates on. -/
structure DB where
  users : List User
  projects : List Project
  tickets : List Ticket
deriving DecidableEq, Repr

/-- The `ApiError(message, statusCode)` value from `middlewares/errorHandler`. -/
structure ApiError where
  message : String
  statusCode : Nat
deriving DecidableEq, Repr

/-- Decidable equality of `Except` results, so that concrete controller
runs can be evaluated by `decide`. -/
instance {e a : Type} [DecidableEq e] [DecidableEq a] : DecidableEq (Except e a) :=
  fun x y =>
    match x, y with
    | .ok v, .ok w => if h : v = w then isTrue (by rw [h]) else isFalse (by simp [h])
    | .error v, .error w => if h : v = w then isTrue (by rw [h]) else isFalse (by simp [h])
    | .ok _, .error _ => isFalse (by simp)
    | .error _, .ok _ => isFalse (by simp)

/-- A fire-and-forget notification request handed to the email
collaborator; the core only constructs these, never delivers them. -/
inductive Notification
  | assignment (ticket : TicketId) (assignee : UserId) (actor : UserId)
  | statusUpdate (ticket : TicketId) (recipients : List String) (actor : UserId)
  | projectInvitation (project : ProjectId) (invitee : UserId) (actor : UserId)
deriving DecidableEq, Repr

/-- The `roleHierarchy` table from `projectSchema.methods.hasAccess`
(`models/Project.js` line 106): VIEWER=1, CONTRIBUTOR=2, MANAGER=3. -/
def roleHierarchy : MemberRole → Nat
  | .VIEWER => 1
  | .CONTRIBUTOR => 2
  | .MANAGER => 3

/-- The method `projectSchema.methods.hasAccess(userId, requiredRole = 'VIEWER')`
(`models/Project.js` lines 96-108): the creator always has access;
otherwise the first matching member entry decides by rank comparison;
a non-member is denied. -/
def hasAccess (p : Project) (userId : UserId) (requiredRole : MemberRole := .VIEWER) : Bool :=
  if p.createdBy == userId then
    true
  else
    match p.members.find? (fun m => m.user == userId) with
    | none => false
    | some member => roleHierarchy requiredRole ≤ roleHierarchy member.role

/-- The query `User.findOne({_id, isActive: true})` used by the controllers. -/
def findActiveUser (db : DB) (uid : UserId) : Option User :=
  db.users.find? (fun u => u.id == uid && u.isActive)

/-- The query `User.findById(id)`. -/
def findUserById (db : DB) (uid : UserId) : Option User :=
  db.users.find? (fun u => u.id == uid)

/-- The query `Project.findOne({_id, isActive: true})`. -/
def findActiveProject (db : DB) (pid : ProjectId) : Option Project :=
  db.projects.find? (fun p => p.id == pid && p.isActive)

/-- The query `Project.findById(id)`. -/
def findProjectById (db : DB) (pid : ProjectId) : Option Project :=
  db.projects.find? (fun p => p.id == pid)

/-- The query `Ticket.findById(id)`. -/
def findTicketById (db : DB) (tid : TicketId) : Option Ticket :=
  db.tickets.find? (fun t => t.id == tid)

/-- Mongoose `populate` of a user reference: a dangling or absent
reference populates to `null`. -/
def populateUser (db : DB) : Option UserId → Option User
  | none => none
  | some uid => findUserById db uid

/-- The `ticketSchema.pre('save')` hook (`models/Ticket.js` lines 118-146).
`statusModified` is Mongoose's `isModified('status')` (true exactly when the
controller assigned a status different from the stored one), `isNew` marks a
freshly created document, `modifiedBy` is the transient `this.modifiedBy` set
by the controllers, falling back to `createdBy`. -/
def ticketPreSave (t : Ticket) (statusModified : Bool) (isNew : Bool)
    (modifiedBy : Option UserId) (now : Date) : Ticket :=
  let t1 :=
    if statusModified && !isNew then
      { t with statusHistory := t.statusHistory ++
          [{ status := t.status, changedBy := modifiedBy.getD t.createdBy,
             changedAt := now, comment := none }] }
    else t
  if statusModified then
    let t2 := if t1.status == .RESOLVED && t1.resolvedAt.isNone then
        { t1 with resolvedAt := some now } else t1
    let t3 := if t2.status == .CLOSED && t2.closedAt.isNone then
        { t2 with closedAt := some now } else t2
    let t4 := if t3.status != .RESOLVED && t3.status != .CLOSED then
        { t3 with resolvedAt := none } else t3
    if t4.status != .CLOSED then { t4 with closedAt := none } else t4
  else t1

/-- Replace the stored copy of a saved ticket (`ticket.save()`). -/
def saveTicket (db : DB) (t : Ticket) : DB :=
  { db with tickets := db.tickets.map (fun u => if u.id == t.id then t else u) }

/-- Replace the stored copy of a saved project (`project.save()`). -/
def saveProject (db : DB) (p : Project) : DB :=
  { db with projects := db.projects.map (fun q => if q.id == p.id then p else q) }

/-- Replace the stored copy of a saved user (`user.save()`). -/
def saveUser (db : DB) (u : User) : DB :=
  { db with users := db.users.map (fun v => if v.id == u.id then u else v) }

/-- Request body of `updateTicket`: `some x` means the field was present in
`req.body` (JS `updvalues[field] !== undefined`), the inner option mirrors a
nullable value such as `assignedTo: null`. -/
structure TicketUpdates where
  title : Option String := none
  description : Option String := none
  status : Option TicketStatus := none
  priority : Option TicketPriority := none
  type : Option TicketType := none
  assignedTo : Option (Option UserId) := none
  dueDate : Option (Option Date) := none
  estimatedHours : Option (Option Nat) := none
  actualHours : Option Nat := none
  tags : Option (List String) := none
deriving DecidableEq, Repr

/-- The `allowedUpdates.forEach` loop of `updateTicket`
(`controllers/ticketController.js` lines 227-237): copy each supplied
field onto the document, leaving unsupplied fields untouched. -/
def applyTicketUpdates (t : Ticket) (u : TicketUpdates) : Ticket :=
  { t with
    title := u.title.getD t.title
    description := u.description.getD t.description
    status := u.status.getD t.status
    priority := u.priority.getD t.priority
    type := u.type.getD t.type
    assignedTo := u.assignedTo.getD t.assignedTo
    dueDate := u.dueDate.getD t.dueDate
    estimatedHours := u.estimatedHours.getD t.estimatedHours
    actualHours := u.actualHours.getD t.actualHours
    tags := u.tags.getD t.tags }

/-- Recipient list of `EmailService.sendTicketStatusUpdateEmail`
(`utils` email service, lines 176-181): the populated assignee's email,
then the populated creator's email unless it equals the assignee's. -/
def statusUpdateRecipients (assignedTo createdBy : Option User) : List String :=
  let r1 := match assignedTo with
    | some u => [u.email]
    | none => []
  match createdBy with
  | some c => if (assignedTo.map User.email) ≠ some c.email then r1 ++ [c.email] else r1
  | none => r1

/-- The string comparison on line 255 of `updateTicket`:
`previousAssignedTo?.toString() !== ticket.assignedTo?.toString()`, here in
its negation.  `previousAssignedTo` is the assignee document populated with
all schema fields when the ticket was loaded (line 196 `.populate('project
assignedTo createdBy')`); `ticket.assignedTo` after saving is the document
repopulated with only `name email` selected (lines 245-249).  Mongoose's
`Document.prototype.toString()` returns the inspect dump of the document,
not its id, so the two strings are equal only when both sides are null
(`undefined === undefined`); two populated user documents — even two
hydrations of the same user — stringify differently here because their
field selections differ (the load-time document carries `role`, `isActive`
and timestamps that the `name email` projection lacks). -/
def assigneeDocStringEq : Option User → Option User → Bool
  | none, none => true
  | _, _ => false

/-- The controller `updateTicket` (`controllers/ticketController.js` lines 192-271),
with the HTTP plumbing stripped: returns the store after the operation
together with either the saved ticket and the notification requests
issued, or the `ApiError` thrown.  A `null` populated project would crash
the source with a TypeError, modelled as a 500 error.  `previousAssignedTo`
is the populated document captured at line 210, and the line-255 diff check
on the two documents' `toString()` dumps is `!assigneeDocStringEq`; the
assignment email of lines 261-264 goes to the repopulated assignee document,
so its truthiness test and `_id` are the populated document's. -/
def updateTicket (db : DB) (actor : User) (id : TicketId) (updates : TicketUpdates)
    (now : Date) : DB × Except ApiError (Ticket × List Notification) :=
  match findTicketById db id with
  | none => (db, .error ⟨"Ticket not found", 404⟩)
  | some ticket =>
    match findProjectById db ticket.project with
    | none => (db, .error ⟨"Cannot read properties of null", 500⟩)
    | some project =>
      if actor.role != .ADMIN && !hasAccess project actor.id .CONTRIBUTOR then
        (db, .error ⟨"Access denied to update this ticket", 403⟩)
      else
        let previousStatus := ticket.status
        let previousAssignedTo := populateUser db ticket.assignedTo
        let assigneeError : Option ApiError :=
          match updates.assignedTo with
          | some (some uid) =>
            match findActiveUser db uid with
            | none => some ⟨"Assigned user not found or inactive", 404⟩
            | some _ =>
              if actor.role != .ADMIN && !hasAccess project uid .VIEWER then
                some ⟨"Assigned user does not have access to this project", 403⟩
              else none
          | _ => none
        match assigneeError with
        | some e => (db, .error e)
        | none =>
          let updated := applyTicketUpdates ticket updates
          let statusModified := updated.status != ticket.status
          let saved := ticketPreSave updated statusModified false (some actor.id) now
          let db' := saveTicket db saved
          let shouldNotifyStatusChange := previousStatus != saved.status
          let shouldNotifyAssignment :=
            updates.assignedTo.isSome &&
              !assigneeDocStringEq previousAssignedTo (populateUser db' saved.assignedTo)
          let statusNotifs :=
            if shouldNotifyStatusChange then
              [Notification.statusUpdate saved.id
                (statusUpdateRecipients (populateUser db' saved.assignedTo)
                  (populateUser db' (some saved.createdBy))) actor.id]
            else []
          let assignNotifs :=
            match populateUser db' saved.assignedTo with
            | some assignedUser =>
              if shouldNotifyAssignment && assignedUser.id != actor.id then
                [Notification.assignment saved.id assignedUser.id actor.id]
              else []
            | none => []
          (db', .ok (saved, statusNotifs ++ assignNotifs))

/-- Request body of `createTicket` (`controllers/ticketController.js`
lines 9-19). -/
structure CreateTicketInput where
  title : String
  description : String
  priority : Option TicketPriority := none
  type : Option TicketType := none
  project : ProjectId
  assignedTo : Option UserId := none
  dueDate : Option Date := none
  estimatedHours : Option Nat := none
  tags : Option (List String) := none
deriving DecidableEq, Repr

/-- The controller `createTicket` (`controllers/ticketController.js` lines 8-82).
`newId` stands for the id the store mints for the new document. -/
def createTicket (db : DB) (actor : User) (input : CreateTicketInput)
    (newId : TicketId) (now : Date) : DB × Except ApiError (Ticket × List Notification) :=
  match db.projects.find? (fun p => p.id == input.project && p.isActive) with
  | none => (db, .error ⟨"Project not found", 404⟩)
  | some projectDoc =>
    if actor.role != .ADMIN && !hasAccess projectDoc actor.id .CONTRIBUTOR then
      (db, .error ⟨"Access denied to this project", 403⟩)
    else
      let assigneeError : Option ApiError :=
        match input.assignedTo with
        | some uid =>
          match findActiveUser db uid with
          | none => some ⟨"Assigned user not found or inactive", 404⟩
          | some _ =>
            if actor.role != .ADMIN && !hasAccess projectDoc uid .VIEWER then
              some ⟨"Assigned user does not have access to this project", 403⟩
            else none
        | none => none
      match assigneeError with
      | some e => (db, .error e)
      | none =>
        let ticket : Ticket :=
          { id := newId
            title := input.title
            description := input.description
            status := .OPEN
            priority := input.priority.getD .MEDIUM
            type := input.type.getD .BUG
            assignedTo := input.assignedTo
            project := input.project
            createdBy := actor.id
            dueDate := input.dueDate
            estimatedHours := input.estimatedHours
            actualHours := 0
            tags := input.tags.getD []
            statusHistory := [{ status := .OPEN, changedBy := actor.id,
                                changedAt := now, comment := some "Ticket created" }]
            resolvedAt := none
            closedAt := none }
        let saved := ticketPreSave ticket true true none now
        let db' := { db with tickets := db.tickets ++ [saved] }
        let notifs :=
          match input.assignedTo with
          | some a => if a != actor.id then [Notification.assignment saved.id a actor.id] else []
          | none => []
        (db', .ok (saved, notifs))

/-- The controller `assignTicket` (`controllers/ticketController.js` lines 301-348).
The source captures `previousAssignee` but never consults it: the
assignment email is gated only on the assignee not being the actor. -/
def assignTicket (db : DB) (actor : User) (id : TicketId) (userId : UserId)
    (now : Date) : DB × Except ApiError (Ticket × List Notification) :=
  match findTicketById db id with
  | none => (db, .error ⟨"Ticket not found", 404⟩)
  | some ticket =>
    match findProjectById db ticket.project with
    | none => (db, .error ⟨"Cannot read properties of null", 500⟩)
    | some project =>
      if actor.role != .ADMIN && !hasAccess project actor.id .CONTRIBUTOR then
        (db, .error ⟨"Access denied to assign this ticket", 403⟩)
      else
        match findActiveUser db userId with
        | none => (db, .error ⟨"User not found or inactive", 404⟩)
        | some _ =>
          if actor.role != .ADMIN && !hasAccess project userId .VIEWER then
            (db, .error ⟨"User does not have access to this project", 403⟩)
          else
            let updated := { ticket with assignedTo := some userId }
            let saved := ticketPreSave updated false false (some actor.id) now
            let db' := saveTicket db saved
            let notifs :=
              if userId != actor.id then [Notification.assignment saved.id userId actor.id]
              else []
            (db', .ok (saved, notifs))

/-- The controller `unassignTicket` (`controllers/ticketController.js` lines 351-380). -/
def unassignTicket (db : DB) (actor : User) (id : TicketId)
    (now : Date) : DB × Except ApiError (Ticket × List Notification) :=
  match findTicketById db id with
  | none => (db, .error ⟨"Ticket not found", 404⟩)
  | some ticket =>
    match findProjectById db ticket.project with
    | none => (db, .error ⟨"Cannot read properties of null", 500⟩)
    | some project =>
      if actor.role != .ADMIN && !hasAccess project actor.id .CONTRIBUTOR then
        (db, .error ⟨"Access denied to unassign this ticket", 403⟩)
      else
        let updated := { ticket with assignedTo := none }
        let saved := ticketPreSave updated false false (some actor.id) now
        let db' := saveTicket db saved
        (db', .ok (saved, []))

/-- The controller `deleteProject` (`controllers/projectController.js` lines 178-211):
admin-only at the route layer; if any ticket references the project it is
soft-archived and returned, otherwise the document is removed (`none`). -/
def deleteProject (db : DB) (id : ProjectId) : DB × Except ApiError (Option Project) :=
  match findActiveProject db id with
  | none => (db, .error ⟨"Project not found", 404⟩)
  | some project =>
    let hasTickets := db.tickets.any (fun t => t.project == id)
    if hasTickets then
      let archived := { project with isActive := false, status := .ARCHIVED }
      (saveProject db archived, .ok (some archived))
    else
      ({ db with projects := db.projects.filter (fun p => !(p.id == id)) }, .ok none)

/-- The controller `addProjectMember` (`controllers/projectController.js` lines 214-261);
the member `role` defaults to CONTRIBUTOR at the destructuring site. -/
def addProjectMember (db : DB) (actor : User) (id : ProjectId) (userId : UserId)
    (role : MemberRole := .CONTRIBUTOR) (now : Date) :
    DB × Except ApiError (Project × List Notification) :=
  match findActiveProject db id with
  | none => (db, .error ⟨"Project not found", 404⟩)
  | some project =>
    if actor.role != .ADMIN && project.createdBy != actor.id then
      (db, .error ⟨"Access denied. Only admin or project creator can add members", 403⟩)
    else
      match findActiveUser db userId with
      | none => (db, .error ⟨"User not found or inactive", 404⟩)
      | some _user =>
        if project.members.any (fun m => m.user == userId) then
          (db, .error ⟨"User is already a member of this project", 400⟩)
        else
          let updated := { project with members := project.members ++
              [{ user := userId, role := role, joinedAt := now }] }
          (saveProject db updated,
           .ok (updated, [Notification.projectInvitation id userId actor.id]))

/-- The controller `updateUserRole` (user controller, lines 221-256).  The raw-string
enum check (`['USER','ADMIN'].includes(role)`) is subsumed by the typed
`UserRole` argument. -/
def updateUserRole (db : DB) (actor : User) (userId : UserId) (role : UserRole) :
    DB × Except ApiError User :=
  match findUserById db userId with
  | none => (db, .error ⟨"User not found", 404⟩)
  | some user =>
    if user.id == actor.id then
      (db, .error ⟨"Cannot modify your own role", 400⟩)
    else
      let updated := { user with role := role }
      (saveUser db updated, .ok updated)

/-- The controller `updateUserStatus` (user controller, lines 259-291). -/
def updateUserStatus (db : DB) (actor : User) (userId : UserId) (isActive : Bool) :
    DB × Except ApiError User :=
  match findUserById db userId with
  | none => (db, .error ⟨"User not found", 404⟩)
  | some user =>
    if user.id == actor.id then
      (db, .error ⟨"Cannot modify your own status", 400⟩)
    else
      let updated := { user with isActive := isActive }
      (saveUser db updated, .ok updated)

/-- The controller `deleteUser` (user controller, lines 294-335): self-deletion is
rejected; a user referenced by a created project, or by a created or
assigned ticket, is deactivated (`some` deactivated user) instead of
removed; otherwise the document is removed (`none`). -/
def deleteUser (db : DB) (actor : User) (userId : UserId) :
    DB × Except ApiError (Option User) :=
  match findUserById db userId with
  | none => (db, .error ⟨"User not found", 404⟩)
  | some user =>
    if user.id == actor.id then
      (db, .error ⟨"Cannot delete your own account", 400⟩)
    else
      let hasProjects := db.projects.any (fun p => p.createdBy == userId)
      let hasTickets := db.tickets.any
        (fun t => t.createdBy == userId || t.assignedTo == some userId)
      if hasProjects || hasTickets then
        let deactivated := { user with isActive := false }
        (saveUser db deactivated, .ok (some deactivated))
      else
        ({ db with users := db.users.filter (fun u => !(u.id == userId)) }, .ok none)

/-- Does a ticket reference this project (`Ticket.findOne({project: id})`)? -/
def projectHasTickets (db : DB) (id : ProjectId) : Bool :=
  db.tickets.any (fun t => t.project == id)

/-- Is this user referenced by a created project or a created/assigned
ticket (the dependency check of `deleteUser`)? -/
def userHasData (db : DB) (userId : UserId) : Bool :=
  db.projects.any (fun p => p.createdBy == userId) ||
    db.tickets.any (fun t => t.createdBy == userId || t.assignedTo == some userId)

/-- Does the notification list contain an assignment request? -/
def emitsAssignment (ns : List Notification) : Bool :=
  ns.any (fun n => match n with
    | .assignment _ _ _ => true
    | _ => false)

/-- Does the notification list contain a status-update request? -/
def emitsStatusUpdate (ns : List Notification) : Bool :=
  ns.any (fun n => match n with
    | .statusUpdate _ _ _ => true
    | _ => false)

/-! ### Concrete fixtures used by witnesses and counterexamples -/

/-- Fixture: an active admin. -/
def U1 : User := { id := 1, name := "a", email := "a@x", role := .ADMIN, isActive := true }

/-- Fixture: an active regular user, CONTRIBUTOR on `P1`. -/
def U2 : User := { id := 2, name := "b", email := "b@x", role := .USER, isActive := true }

/-- Fixture: an active regular user, VIEWER on `P1`, no associated data. -/
def U3 : User := { id := 3, name := "c", email := "c@x", role := .USER, isActive := true }

/-- Fixture: a project created by `U1` with members `U2` and `U3`. -/
def P1 : Project :=
  { id := 10, name := "p", description := "d", createdBy := 1, isActive := true,
    status := .ACTIVE, priority := .MEDIUM, endDate := none,
    members := [{ user := 2, role := .CONTRIBUTOR, joinedAt := 0 },
                { user := 3, role := .VIEWER, joinedAt := 0 }] }

/-- Fixture: a second project, created by `U2`, with no tickets. -/
def P2 : Project :=
  { id := 11, name := "q", description := "d", createdBy := 2, isActive := true,
    status := .ACTIVE, priority := .MEDIUM, endDate := none, members := [] }

/-- Fixture: an open ticket in `P1`, created by and assigned to `U2`. -/
def T1 : Ticket :=
  { id := 100, title := "t", description := "d", status := .OPEN, priority := .MEDIUM,
    type := .BUG, assignedTo := some 2, project := 10, createdBy := 2,
    dueDate := none, estimatedHours := none, actualHours := 0, tags := [],
    statusHistory := [{ status := .OPEN, changedBy := 2, changedAt := 0,
                        comment := some "Ticket created" }],
    resolvedAt := none, closedAt := none }

/-- Fixture store holding the three users, two projects and one ticket. -/
def DB1 : DB := { users := [U1, U2, U3], projects := [P1, P2], tickets := [T1] }

/-- Fixture: the store after the admin sets `T1` to RESOLVED at time 5. -/
def DB2 : DB := (updateTicket DB1 U1 100 { status := some .RESOLVED } 5).1

/-- Fixture: `T1` after the admin moves it to IN_PROGRESS at time 7. -/
def T1ip : Ticket :=
  { T1 with status := .IN_PROGRESS,
            statusHistory := T1.statusHistory ++
              [{ status := .IN_PROGRESS, changedBy := 1, changedAt := 7, comment := none }] }

/-- Fixture: `T1` reassigned to `U3`. -/
def T1a3 : Ticket := { T1 with assignedTo := some 3 }

/-! ### Facts about the pre-save hook -/

/-- Saving without a status modification leaves the document untouched. -/
theorem ticketPreSave_not_modified (t : Ticket) (isNew : Bool) (mb : Option UserId)
    (now : Date) : ticketPreSave t false isNew mb now = t := rfl

/-- The pre-save hook never changes the non-derived fields of the ticket
(it only touches `statusHistory`, `resolvedAt` and `closedAt`). -/
theorem ticketPreSave_frame (t : Ticket) (sm isNew : Bool) (mb : Option UserId)
    (now : Date) :
    (ticketPreSave t sm isNew mb now).id = t.id ∧
    (ticketPreSave t sm isNew mb now).title = t.title ∧
    (ticketPreSave t sm isNew mb now).description = t.description ∧
    (ticketPreSave t sm isNew mb now).status = t.status ∧
    (ticketPreSave t sm isNew mb now).priority = t.priority ∧
    (ticketPreSave t sm isNew mb now).type = t.type ∧
    (ticketPreSave t sm isNew mb now).assignedTo = t.assignedTo ∧
    (ticketPreSave t sm isNew mb now).project = t.project ∧
    (ticketPreSave t sm isNew mb now).createdBy = t.createdBy ∧
    (ticketPreSave t sm isNew mb now).dueDate = t.dueDate ∧
    (ticketPreSave t sm isNew mb now).estimatedHours = t.estimatedHours ∧
    (ticketPreSave t sm isNew mb now).actualHours = t.actualHours ∧
    (ticketPreSave t sm isNew mb now).tags = t.tags := by
  cases sm
  · simp [ticketPreSave_not_modified]
  · cases isNew <;> cases ht : t.status <;> cases hr : t.resolvedAt <;>
      cases hc : t.closedAt <;> simp +decide [ticketPreSave, ht, hr, hc]

/-- History bookkeeping of the pre-save hook: a status modification on an
existing document appends exactly the one entry attributed to
`modifiedBy || createdBy`; otherwise the history is untouched. -/
theorem ticketPreSave_history (t : Ticket) (mb : Option UserId) (now : Date) :
    (ticketPreSave t true false mb now).statusHistory
      = t.statusHistory ++
          [{ status := t.status, changedBy := mb.getD t.createdBy,
             changedAt := now, comment := none }] ∧
    ∀ isNew, (ticketPreSave t false isNew mb now).statusHistory = t.statusHistory ∧
      (ticketPreSave t true true mb now).statusHistory = t.statusHistory := by
  constructor
  · cases ht : t.status <;> cases hr : t.resolvedAt <;> cases hc : t.closedAt <;>
      simp +decide [ticketPreSave, ht, hr, hc]
  · intro isNew
    constructor
    · rfl
    · cases ht : t.status <;> cases hr : t.resolvedAt <;> cases hc : t.closedAt <;>
        simp +decide [ticketPreSave, ht, hr, hc]

/-- Timestamp derivation of the pre-save hook on a status modification:
`resolvedAt` is populated for RESOLVED, cleared for OPEN and IN_PROGRESS,
and retained untouched for CLOSED; `closedAt` is populated exactly for
CLOSED. -/
theorem ticketPreSave_timestamps (t : Ticket) (mb : Option UserId) (now : Date) :
    ((t.status = .RESOLVED →
        (ticketPreSave t true false mb now).resolvedAt = some (t.resolvedAt.getD now)) ∧
     (t.status = .OPEN ∨ t.status = .IN_PROGRESS →
        (ticketPreSave t true false mb now).resolvedAt = none) ∧
     (t.status = .CLOSED →
        (ticketPreSave t true false mb now).resolvedAt = t.resolvedAt)) ∧
    ((ticketPreSave t true false mb now).closedAt
        = if t.status = .CLOSED then some (t.closedAt.getD now) else none) := by
  cases ht : t.status <;> cases hr : t.resolvedAt <;> cases hc : t.closedAt <;>
    simp +decide [ticketPreSave, ht, hr, hc]

/-! ### Characterisation of successful controller runs -/

/-- A successful `updateTicket` run saves exactly the pre-save image of
the field-merged ticket and issues exactly the status/assignment
notification requests of lines 252-264 of the controller. -/
theorem updateTicket_ok (db : DB) (actor : User) (id : TicketId) (upd : TicketUpdates)
    (now : Date) (t0 t : Ticket) (ns : List Notification)
    (h0 : findTicketById db id = some t0)
    (h : (updateTicket db actor id upd now).2 = .ok (t, ns)) :
    t = ticketPreSave (applyTicketUpdates t0 upd)
          ((applyTicketUpdates t0 upd).status != t0.status) false (some actor.id) now ∧
    ns = (if t0.status != t.status
          then [Notification.statusUpdate t.id
                 (statusUpdateRecipients (populateUser (saveTicket db t) t.assignedTo)
                    (populateUser (saveTicket db t) (some t.createdBy))) actor.id]
          else []) ++
         (match populateUser (saveTicket db t) t.assignedTo with
          | some assignedUser =>
            if (upd.assignedTo.isSome &&
                !assigneeDocStringEq (populateUser db t0.assignedTo)
                  (populateUser (saveTicket db t) t.assignedTo)) &&
               (assignedUser.id != actor.id)
            then [Notification.assignment t.id assignedUser.id actor.id] else []
          | none => []) := by
  simp only [updateTicket, h0] at h
  rcases hp : findProjectById db t0.project with _ | project <;> simp only [hp] at h
  · simp at h
  · split at h
    · simp at h
    · split at h
      · simp at h
      · simp only [Prod.snd, Except.ok.injEq, Prod.mk.injEq] at h
        obtain ⟨h1, h2⟩ := h
        subst h1
        exact ⟨rfl, h2.symm⟩

/-- A successful `assignTicket` run saves the ticket with only
`assignedTo` replaced and emits an assignment request exactly when the
assignee is not the actor (regardless of the previous assignee). -/
theorem assignTicket_ok (db : DB) (actor : User) (id : TicketId) (uid : UserId)
    (now : Date) (t0 t : Ticket) (ns : List Notification)
    (h0 : findTicketById db id = some t0)
    (h : (assignTicket db actor id uid now).2 = .ok (t, ns)) :
    t = { t0 with assignedTo := some uid } ∧
    ns = if uid != actor.id then [Notification.assignment t.id uid actor.id] else [] := by
  simp only [assignTicket, h0] at h
  rcases hp : findProjectById db t0.project with _ | project <;> simp only [hp] at h
  · simp at h
  · split at h
    · simp at h
    · rcases hu : findActiveUser db uid with _ | au <;> simp only [hu] at h
      · simp at h
      · split at h
        · simp at h
        · simp only [Prod.snd, Except.ok.injEq, Prod.mk.injEq] at h
          obtain ⟨h1, h2⟩ := h
          subst h1
          exact ⟨rfl, h2.symm⟩

/-- A successful `unassignTicket` run saves the ticket with only
`assignedTo` cleared and emits no notification. -/
theorem unassignTicket_ok (db : DB) (actor : User) (id : TicketId)
    (now : Date) (t0 t : Ticket) (ns : List Notification)
    (h0 : findTicketById db id = some t0)
    (h : (unassignTicket db actor id now).2 = .ok (t, ns)) :
    t = { t0 with assignedTo := none } ∧ ns = [] := by
  simp only [unassignTicket, h0] at h
  rcases hp : findProjectById db t0.project with _ | project <;> simp only [hp] at h
  · simp at h
  · split at h
    · simp at h
    · simp only [Prod.snd, Except.ok.injEq, Prod.mk.injEq] at h
      obtain ⟨h1, h2⟩ := h
      subst h1
      exact ⟨rfl, h2.symm⟩

/-- A successful `createTicket` run stores the pre-save image of the
fresh OPEN ticket and emits an assignment request exactly when an
assignee was supplied and is not the actor. -/
theorem createTicket_ok (db : DB) (actor : User) (inp : CreateTicketInput)
    (nid : TicketId) (now : Date) (t : Ticket) (ns : List Notification)
    (h : (createTicket db actor inp nid now).2 = .ok (t, ns)) :
    t = ticketPreSave
          { id := nid, title := inp.title, description := inp.description,
            status := .OPEN, priority := inp.priority.getD .MEDIUM,
            type := inp.type.getD .BUG, assignedTo := inp.assignedTo,
            project := inp.project, createdBy := actor.id, dueDate := inp.dueDate,
            estimatedHours := inp.estimatedHours, actualHours := 0,
            tags := inp.tags.getD [],
            statusHistory := [{ status := .OPEN, changedBy := actor.id,
                                changedAt := now, comment := some "Ticket created" }],
            resolvedAt := none, closedAt := none } true true none now ∧
    ns = (match inp.assignedTo with
          | some a => if a != actor.id then [Notification.assignment t.id a actor.id] else []
          | none => []) := by
  simp only [createTicket] at h
  rcases hp : db.projects.find? (fun p => p.id == inp.project && p.isActive)
    with _ | projectDoc <;> simp only [hp] at h
  · simp at h
  · split at h
    · simp at h
    · split at h
      · simp at h
      · simp only [Prod.snd, Except.ok.injEq, Prod.mk.injEq] at h
        obtain ⟨h1, h2⟩ := h
        subst h1
        exact ⟨rfl, h2.symm⟩

/-- The recipient list built by `sendTicketStatusUpdateEmail` is
duplicate-free and contains exactly the emails of the (populated,
non-null) assignee and creator. -/
theorem statusUpdateRecipients_spec (a c : Option User) :
    (statusUpdateRecipients a c).Nodup ∧
    ∀ e, e ∈ statusUpdateRecipients a c ↔
      ((∃ u, a = some u ∧ u.email = e) ∨ ∃ u, c = some u ∧ u.email = e) := by
  cases a with
  | none =>
    cases c with
    | none => simp [statusUpdateRecipients]
    | some cu => simp [statusUpdateRecipients, eq_comm]
  | some au =>
    cases c with
    | none => simp [statusUpdateRecipients, eq_comm]
    | some cu =>
      by_cases he : au.email = cu.email <;>
        simp [statusUpdateRecipients, he, eq_comm]

/-- Against a populated (non-null) right-hand document the `toString()`
comparison of line 255 always reports a difference, whatever the left
document is. -/
theorem assigneeDocStringEq_some (x : Option User) (u : User) :
    assigneeDocStringEq x (some u) = false := by
  cases x <;> rfl

/-- Convert an evaluated `Except.toOption` equation back into an
`Except.ok` equation (used to feed kernel-evaluated runs to theorems). -/
theorem except_ok_of_toOption {e : Except ApiError (Ticket × List Notification)}
    {a : Ticket × List Notification} (h : e.toOption = some a) : e = .ok a := by
  cases e with
  | error x => simp [Except.toOption] at h
  | ok x => simp [Except.toOption] at h; rw [h]

/-! ### Claims -/

/-- C1: for every project, actor id and required level, `hasAccess`
returns true when the actor is the creator; otherwise false when no
member entry has `user == actorId`; otherwise true exactly when the
matching member's role rank is at least the required level's rank under
VIEWER=1 < CONTRIBUTOR=2 < MANAGER=3.  The embedded `hasAccess` is a
pure function of its arguments, matching the mutation-free source. -/
theorem hasAccess_characterisation (p : Project) (a : UserId) (l : MemberRole) :
    (p.createdBy = a → hasAccess p a l = true) ∧
    (p.createdBy ≠ a → p.members.find? (fun m => m.user == a) = none →
      hasAccess p a l = false) ∧
    ∀ m, p.createdBy ≠ a → p.members.find? (fun m => m.user == a) = some m →
      (hasAccess p a l = true ↔ roleHierarchy l ≤ roleHierarchy m.role) := by
  refine ⟨?_, ?_, ?_⟩
  · intro h
    simp [hasAccess, h]
  · intro h hf
    simp [hasAccess, h, hf]
  · intro m h hf
    simp [hasAccess, h, hf]

/-- Witness for C1 on the fixture project: the CONTRIBUTOR member `U2`
clears the CONTRIBUTOR gate, a stranger (id 4) is denied at VIEWER. -/
theorem hasAccess_characterisation_witness :
    hasAccess P1 2 .CONTRIBUTOR = true ∧ hasAccess P1 4 .VIEWER = false := by
  constructor
  · exact ((hasAccess_characterisation P1 2 .CONTRIBUTOR).2.2
      { user := 2, role := .CONTRIBUTOR, joinedAt := 0 } (by decide) (by decide)).mpr
      (by decide)
  · exact (hasAccess_characterisation P1 4 .VIEWER).2.1 (by decide) (by decide)

/-- C10: `hasAccess` is antitone in the required capability level:
MANAGER access implies CONTRIBUTOR access, which implies VIEWER access. -/
theorem hasAccess_level_antitone (p : Project) (u : UserId) :
    (hasAccess p u .MANAGER = true → hasAccess p u .CONTRIBUTOR = true) ∧
    (hasAccess p u .CONTRIBUTOR = true → hasAccess p u .VIEWER = true) := by
  have aux : ∀ l1 l2 : MemberRole, roleHierarchy l1 ≤ roleHierarchy l2 →
      hasAccess p u l2 = true → hasAccess p u l1 = true := by
    intro l1 l2 hle h
    unfold hasAccess at h ⊢
    by_cases hc : p.createdBy == u
    · simp [hc]
    · simp only [hc, Bool.false_eq_true, if_false] at h ⊢
      cases hf : p.members.find? (fun m => m.user == u) with
      | none => rw [hf] at h; simp at h
      | some m =>
        rw [hf] at h
        replace h : decide (roleHierarchy l2 ≤ roleHierarchy m.role) = true := h
        show decide (roleHierarchy l1 ≤ roleHierarchy m.role) = true
        rw [decide_eq_true_eq] at h ⊢
        exact le_trans hle h
  exact ⟨aux _ _ (by decide), aux _ _ (by decide)⟩

/-- Witness for C10: the CONTRIBUTOR member `U2` also passes VIEWER. -/
theorem hasAccess_level_antitone_witness : hasAccess P1 2 .VIEWER = true :=
  (hasAccess_level_antitone P1 2).2 (by decide)

/-- C2 counterexample: driving `T1` through saved status changes
OPEN → RESOLVED (time 5) → CLOSED (time 6) via `updateTicket` leaves the
ticket CLOSED with `resolvedAt = some 5`, not null: the hook only clears
`resolvedAt` when the new status is neither RESOLVED nor CLOSED. -/
theorem resolved_then_closed_retains_resolvedAt :
    ((updateTicket DB2 U1 100 { status := some .CLOSED } 6).2.toOption.map
        (fun r => (r.1.status, r.1.resolvedAt)))
      = some (.CLOSED, some 5) := by decide

/-- C2 (amended): after a saved status change, `resolvedAt` is non-null
when the status is RESOLVED, null when it is OPEN or IN_PROGRESS, and
retained unchanged when it is CLOSED (so RESOLVED → CLOSED keeps it
non-null while RESOLVED → OPEN clears it); `closedAt` is non-null exactly
when the status is CLOSED. -/
theorem resolved_closed_timestamp_derivation (t : Ticket) (mb : Option UserId)
    (now : Date) :
    ((ticketPreSave t true false mb now).status = t.status) ∧
    (t.status = .RESOLVED →
      ((ticketPreSave t true false mb now).resolvedAt).isSome = true) ∧
    ((t.status = .OPEN ∨ t.status = .IN_PROGRESS) →
      (ticketPreSave t true false mb now).resolvedAt = none) ∧
    (t.status = .CLOSED →
      (ticketPreSave t true false mb now).resolvedAt = t.resolvedAt) ∧
    (((ticketPreSave t true false mb now).closedAt).isSome = true ↔
      t.status = .CLOSED) := by
  have hts := ticketPreSave_timestamps t mb now
  refine ⟨(ticketPreSave_frame t true false mb now).2.2.2.1, ?_, hts.1.2.1, hts.1.2.2, ?_⟩
  · intro hres
    rw [hts.1.1 hres]
    rfl
  · rw [hts.2]
    by_cases hcl : t.status = .CLOSED <;> simp [hcl]

/-- Witness for the amended C2 at a concrete RESOLVED save. -/
theorem resolved_closed_timestamp_derivation_witness :
    ((ticketPreSave { T1 with status := .RESOLVED } true false (some 1) 5).resolvedAt).isSome
      = true :=
  (resolved_closed_timestamp_derivation { T1 with status := .RESOLVED } (some 1) 5).2.1
    (by decide)

/-- C7: admin user-management operations targeting the actor's own
record (role change, status change, delete) are rejected — the spec's
error taxonomy files this self-guard under Forbidden; the wire code is
400 — and the store, hence the target record, is returned unchanged,
regardless of the actor's (ADMIN) role. -/
theorem self_targeted_admin_guard (db : DB) (actor : User) (uid : UserId) (u0 : User)
    (role : UserRole) (active : Bool)
    (hu : findUserById db uid = some u0) (hself : u0.id = actor.id) :
    updateUserRole db actor uid role
      = (db, .error { message := "Cannot modify your own role", statusCode := 400 }) ∧
    updateUserStatus db actor uid active
      = (db, .error { message := "Cannot modify your own status", statusCode := 400 }) ∧
    deleteUser db actor uid
      = (db, .error { message := "Cannot delete your own account", statusCode := 400 }) := by
  have hbeq : (u0.id == actor.id) = true := by simp [hself]
  refine ⟨?_, ?_, ?_⟩ <;>
    simp [updateUserRole, updateUserStatus, deleteUser, hu, hbeq]

/-- Witness for C7: the admin `U1` may not change their own role. -/
theorem self_targeted_admin_guard_witness :
    updateUserRole DB1 U1 1 .USER
      = (DB1, .error { message := "Cannot modify your own role", statusCode := 400 }) :=
  (self_targeted_admin_guard DB1 U1 1 U1 .USER true (by decide) (by decide)).1

/-- C3: an update of an existing ticket that changes `status` appends
exactly one `statusHistory` entry attributed to the acting user; one that
leaves `status` unchanged appends none; the dedicated assign/unassign
operations never touch the history.  Together with the append equations
this makes the history append-only across the ticket operations. -/
theorem statusHistory_append_on_status_change (db : DB) (actor : User) (id : TicketId)
    (upd : TicketUpdates) (uid : UserId) (now : Date) (t0 : Ticket)
    (h0 : findTicketById db id = some t0) :
    (∀ t ns, (updateTicket db actor id upd now).2 = .ok (t, ns) →
      (t.status ≠ t0.status →
        t.statusHistory = t0.statusHistory ++
          [{ status := t.status, changedBy := actor.id, changedAt := now,
             comment := none }]) ∧
      (t.status = t0.status → t.statusHistory = t0.statusHistory)) ∧
    (∀ t ns, (assignTicket db actor id uid now).2 = .ok (t, ns) →
      t.statusHistory = t0.statusHistory) ∧
    (∀ t ns, (unassignTicket db actor id now).2 = .ok (t, ns) →
      t.statusHistory = t0.statusHistory) := by
  refine ⟨?_, ?_, ?_⟩
  · intro t ns h
    obtain ⟨ht, -⟩ := updateTicket_ok db actor id upd now t0 t ns h0 h
    have hstat : t.status = (applyTicketUpdates t0 upd).status := by
      rw [ht]
      exact (ticketPreSave_frame _ _ false (some actor.id) now).2.2.2.1
    constructor
    · intro hne
      rw [hstat] at hne
      have hmod : ((applyTicketUpdates t0 upd).status != t0.status) = true := by
        simp [hne]
      rw [ht, hmod, (ticketPreSave_history (applyTicketUpdates t0 upd) (some actor.id) now).1]
      rw [ht, hmod] at hstat
      rw [hstat]
      rfl
    · intro heq
      rw [hstat] at heq
      have hmod : ((applyTicketUpdates t0 upd).status != t0.status) = false := by
        simp [heq]
      rw [ht, hmod, ticketPreSave_not_modified]
      rfl
  · intro t ns h
    obtain ⟨ht, -⟩ := assignTicket_ok db actor id uid now t0 t ns h0 h
    rw [ht]
  · intro t ns h
    obtain ⟨ht, -⟩ := unassignTicket_ok db actor id now t0 t ns h0 h
    rw [ht]

/-- Witness for C3: moving `T1` to IN_PROGRESS appends the one entry
attributed to the acting admin. -/
theorem statusHistory_append_witness :
    T1ip.statusHistory = T1.statusHistory ++
      [{ status := T1ip.status, changedBy := 1, changedAt := 7, comment := none }] := by
  have hrun : (updateTicket DB1 U1 100 { status := some .IN_PROGRESS } 7).2
      = .ok (T1ip, [Notification.statusUpdate 100 ["b@x"] 1]) :=
    except_ok_of_toOption (by decide)
  exact ((statusHistory_append_on_status_change DB1 U1 100 { status := some .IN_PROGRESS }
      0 7 T1 (by decide)).1 T1ip [Notification.statusUpdate 100 ["b@x"] 1] hrun).1
      (by decide)

/-- C9: a successful ticket update leaves `project`, `createdBy` and the
document id unchanged, as well as every updatable field that was not
supplied; assign/unassign change exactly the `assignedTo` field. -/
theorem ticket_update_frame (db : DB) (actor : User) (id : TicketId) (upd : TicketUpdates)
    (uid : UserId) (now : Date) (t0 : Ticket)
    (h0 : findTicketById db id = some t0) :
    (∀ t ns, (updateTicket db actor id upd now).2 = .ok (t, ns) →
      t.id = t0.id ∧ t.project = t0.project ∧ t.createdBy = t0.createdBy ∧
      (upd.title = none → t.title = t0.title) ∧
      (upd.description = none → t.description = t0.description) ∧
      (upd.status = none → t.status = t0.status) ∧
      (upd.priority = none → t.priority = t0.priority) ∧
      (upd.type = none → t.type = t0.type) ∧
      (upd.assignedTo = none → t.assignedTo = t0.assignedTo) ∧
      (upd.dueDate = none → t.dueDate = t0.dueDate) ∧
      (upd.estimatedHours = none → t.estimatedHours = t0.estimatedHours) ∧
      (upd.actualHours = none → t.actualHours = t0.actualHours) ∧
      (upd.tags = none → t.tags = t0.tags)) ∧
    (∀ t ns, (assignTicket db actor id uid now).2 = .ok (t, ns) →
      t = { t0 with assignedTo := some uid }) ∧
    (∀ t ns, (unassignTicket db actor id now).2 = .ok (t, ns) →
      t = { t0 with assignedTo := none }) := by
  refine ⟨?_, ?_, ?_⟩
  · intro t ns h
    obtain ⟨ht, -⟩ := updateTicket_ok db actor id upd now t0 t ns h0 h
    obtain ⟨f1, f2, f3, f4, f5, f6, f7, f8, f9, f10, f11, f12, f13⟩ :=
      ticketPreSave_frame (applyTicketUpdates t0 upd)
        ((applyTicketUpdates t0 upd).status != t0.status) false (some actor.id) now
    rw [ht]
    refine ⟨by rw [f1]; rfl, by rw [f8]; rfl, by rw [f9]; rfl,
      ?_, ?_, ?_, ?_, ?_, ?_, ?_, ?_, ?_, ?_⟩ <;>
      intro hn
    · rw [f2]; simp [applyTicketUpdates, hn]
    · rw [f3]; simp [applyTicketUpdates, hn]
    · rw [f4]; simp [applyTicketUpdates, hn]
    · rw [f5]; simp [applyTicketUpdates, hn]
    · rw [f6]; simp [applyTicketUpdates, hn]
    · rw [f7]; simp [applyTicketUpdates, hn]
    · rw [f10]; simp [applyTicketUpdates, hn]
    · rw [f11]; simp [applyTicketUpdates, hn]
    · rw [f12]; simp [applyTicketUpdates, hn]
    · rw [f13]; simp [applyTicketUpdates, hn]
  · intro t ns h
    exact (assignTicket_ok db actor id uid now t0 t ns h0 h).1
  · intro t ns h
    exact (unassignTicket_ok db actor id now t0 t ns h0 h).1

/-- Witness for C9: reassigning `T1` to `U3` leaves every other field
as it was, in particular the owning project. -/
theorem ticket_update_frame_witness : T1a3.project = T1.project := by
  have hrun : (assignTicket DB1 U1 100 3 9).2
      = .ok (T1a3, [Notification.assignment 100 3 1]) :=
    except_ok_of_toOption (by decide)
  have h := (ticket_update_frame DB1 U1 100 {} 3 9 T1 (by decide)).2.1 T1a3
    [Notification.assignment 100 3 1] hrun
  rw [h]

/-- C5 counterexample: `assignTicket` re-assigning `T1` to its current
assignee `U2` (actor `U1`) succeeds with `assignedTo` unchanged
(`some 2` before and after) yet still emits an assignment notification:
the controller only checks that the assignee is not the actor, never the
previous assignee. -/
theorem assign_unchanged_still_notifies :
    (findTicketById DB1 100).map (fun t => t.assignedTo) = some (some 2) ∧
    ((assignTicket DB1 U1 100 2 9).2.toOption.map
        (fun r => (r.1.assignedTo, emitsAssignment r.2)))
      = some (some 2, true) := by
  constructor <;> decide

/-- C5 (amended): on ticket create an assignment notification is emitted
iff an assignee was supplied and is not the actor (the assignee before
creation is always null, so this is also "differs from before and not the
actor"); on update it is emitted iff the request supplied the
`assignedTo` field and the ticket ends up with a populated assignee other
than the actor — even when that assignee is unchanged, because line 255
compares the load-time populated document's `toString()` dump with the
repopulated `name email` document's, which never coincide; the dedicated
assign operation emits iff its (necessarily non-null) assignee is not the
actor, also when unchanged. -/
theorem assignment_notification_conditions (db : DB) (actor : User)
    (inp : CreateTicketInput) (nid : TicketId) (id : TicketId) (upd : TicketUpdates)
    (uid : UserId) (now : Date) (t0 : Ticket)
    (h0 : findTicketById db id = some t0) :
    (∀ t ns, (createTicket db actor inp nid now).2 = .ok (t, ns) →
      (emitsAssignment ns = true ↔ ∃ a, t.assignedTo = some a ∧ a ≠ actor.id)) ∧
    (∀ t ns, (updateTicket db actor id upd now).2 = .ok (t, ns) →
      (emitsAssignment ns = true ↔
        upd.assignedTo.isSome = true ∧
        ∃ au, populateUser (saveTicket db t) t.assignedTo = some au ∧
          au.id ≠ actor.id)) ∧
    (∀ t ns, (assignTicket db actor id uid now).2 = .ok (t, ns) →
      (emitsAssignment ns = true ↔ uid ≠ actor.id)) := by
  refine ⟨?_, ?_, ?_⟩
  · intro t ns h
    obtain ⟨ht, hns⟩ := createTicket_ok db actor inp nid now t ns h
    have hta : t.assignedTo = inp.assignedTo := by
      rw [ht]
      exact (ticketPreSave_frame _ true true none now).2.2.2.2.2.2.1
    subst hns
    rcases hia : inp.assignedTo with _ | a <;> rw [hia] at hta
    · simp [emitsAssignment, hta]
    · by_cases hne : a = actor.id <;>
        simp [emitsAssignment, hta, hne]
  · intro t ns h
    obtain ⟨-, hns⟩ := updateTicket_ok db actor id upd now t0 t ns h0 h
    subst hns
    simp only [emitsAssignment, List.any_append, Bool.or_eq_true]
    have hstatus : (if t0.status != t.status
        then [Notification.statusUpdate t.id
               (statusUpdateRecipients (populateUser (saveTicket db t) t.assignedTo)
                  (populateUser (saveTicket db t) (some t.createdBy))) actor.id]
        else []).any (fun n => match n with
          | .assignment _ _ _ => true
          | _ => false) = false := by
      split <;> simp
    rw [hstatus]
    simp only [Bool.false_eq_true, false_or]
    rcases hpop : populateUser (saveTicket db t) t.assignedTo with _ | au
    · simp
    · by_cases hs : upd.assignedTo.isSome = true <;>
        by_cases hne : au.id = actor.id <;>
          simp [assigneeDocStringEq_some, hs, hne]
  · intro t ns h
    obtain ⟨-, hns⟩ := assignTicket_ok db actor id uid now t0 t ns h0 h
    subst hns
    by_cases hne : uid = actor.id <;> simp [emitsAssignment, hne]

/-- Witness for the amended C5: reassigning `T1` from `U2` to `U3`
through `updateTicket` emits the assignment request. -/
theorem assignment_notification_conditions_witness :
    emitsAssignment [Notification.assignment 100 3 1] = true := by
  have hrun : (updateTicket DB1 U1 100 { assignedTo := some (some 3) } 8).2
      = .ok (T1a3, [Notification.assignment 100 3 1]) :=
    except_ok_of_toOption (by decide)
  exact ((assignment_notification_conditions DB1 U1
      { title := "t", description := "d", project := 10 } 0 100
      { assignedTo := some (some 3) } 0 8 T1 (by decide)).2.1 T1a3
      [Notification.assignment 100 3 1] hrun).mpr
    ⟨by decide, U3, by decide, by decide⟩

/-- C6: a ticket update emits a status-change notification iff the
status after the operation differs from the status before; its recipient
list is duplicate-free and contains exactly the email addresses of the
ticket's populated (non-null) assignee and creator. -/
theorem status_change_notification (db : DB) (actor : User) (id : TicketId)
    (upd : TicketUpdates) (now : Date) (t0 : Ticket)
    (h0 : findTicketById db id = some t0) :
    ∀ t ns, (updateTicket db actor id upd now).2 = .ok (t, ns) →
      (emitsStatusUpdate ns = true ↔ t.status ≠ t0.status) ∧
      ∀ tid rs aid, Notification.statusUpdate tid rs aid ∈ ns →
        rs.Nodup ∧ ∀ e, e ∈ rs ↔
          ((∃ u, populateUser (saveTicket db t) t.assignedTo = some u ∧ u.email = e) ∨
           ∃ u, populateUser (saveTicket db t) (some t.createdBy) = some u ∧ u.email = e) := by
  intro t ns h
  obtain ⟨-, hns⟩ := updateTicket_ok db actor id upd now t0 t ns h0 h
  have hrec := statusUpdateRecipients_spec (populateUser (saveTicket db t) t.assignedTo)
      (populateUser (saveTicket db t) (some t.createdBy))
  subst hns
  have hassign : ((match populateUser (saveTicket db t) t.assignedTo with
      | some assignedUser =>
        if (upd.assignedTo.isSome &&
            !assigneeDocStringEq (populateUser db t0.assignedTo)
              (populateUser (saveTicket db t) t.assignedTo)) &&
           (assignedUser.id != actor.id)
        then [Notification.assignment t.id assignedUser.id actor.id] else []
      | none => []).any (fun n => match n with
        | .statusUpdate _ _ _ => true
        | _ => false)) = false := by
    split <;> try rfl
    split <;> rfl
  constructor
  · simp only [emitsStatusUpdate, List.any_append, hassign, Bool.or_false]
    by_cases hcond : (t0.status != t.status) = true
    · rw [if_pos hcond]
      simp only [bne_iff_ne, ne_eq] at hcond
      simp [Ne.symm hcond]
    · rw [if_neg hcond]
      simp only [bne_iff_ne, ne_eq, not_not] at hcond
      simp [hcond]
  · intro tid rs aid hmem
    rw [List.mem_append] at hmem
    rcases hmem with hmem | hmem
    · by_cases hcond : (t0.status != t.status) = true
      · rw [if_pos hcond] at hmem
        simp only [List.mem_singleton, Notification.statusUpdate.injEq] at hmem
        obtain ⟨-, hrs, -⟩ := hmem
        subst hrs
        exact ⟨hrec.1, hrec.2⟩
      · rw [if_neg hcond] at hmem
        simp at hmem
    · exfalso
      rcases hpop : populateUser (saveTicket db t) t.assignedTo with _ | au <;>
        rw [hpop] at hmem
      · simp at hmem
      · revert hmem
        split <;> simp

/-- Witness for C6: the OPEN → IN_PROGRESS update of `T1` emits exactly
one status notification addressed once to `U2`, who is both assignee and
creator. -/
theorem status_change_notification_witness :
    emitsStatusUpdate [Notification.statusUpdate 100 ["b@x"] 1] = true := by
  have hrun : (updateTicket DB1 U1 100 { status := some .IN_PROGRESS } 7).2
      = .ok (T1ip, [Notification.statusUpdate 100 ["b@x"] 1]) :=
    except_ok_of_toOption (by decide)
  exact ((status_change_notification DB1 U1 100 { status := some .IN_PROGRESS } 7 T1
      (by decide)) T1ip [Notification.statusUpdate 100 ["b@x"] 1] hrun).1.mpr (by decide)

/-- C4: deleting a Project referenced by at least one ticket, or a User
who created a project or created/is assigned a ticket, succeeds without
error and degrades to a soft delete (project kept with
`isActive=false, status=ARCHIVED`; user kept with `isActive=false`);
with zero referencing records the document is physically removed. -/
theorem dependent_data_guard (db : DB) (pid : ProjectId) (uid : UserId) (actor : User)
    (p0 : Project) (u0 : User)
    (hp : findActiveProject db pid = some p0)
    (hu : findUserById db uid = some u0)
    (hself : u0.id ≠ actor.id) :
    (projectHasTickets db pid = true →
      (deleteProject db pid).2
        = .ok (some { p0 with isActive := false, status := .ARCHIVED }) ∧
      { p0 with isActive := false, status := .ARCHIVED }
        ∈ (deleteProject db pid).1.projects) ∧
    (projectHasTickets db pid = false →
      (deleteProject db pid).2 = .ok none ∧
      ∀ q ∈ (deleteProject db pid).1.projects, q.id ≠ pid) ∧
    (userHasData db uid = true →
      (deleteUser db actor uid).2 = .ok (some { u0 with isActive := false }) ∧
      { u0 with isActive := false } ∈ (deleteUser db actor uid).1.users) ∧
    (userHasData db uid = false →
      (deleteUser db actor uid).2 = .ok none ∧
      ∀ v ∈ (deleteUser db actor uid).1.users, v.id ≠ uid) := by
  have hpmem : p0 ∈ db.projects := List.mem_of_find?_eq_some hp
  have humem : u0 ∈ db.users := List.mem_of_find?_eq_some hu
  have hbeq : (u0.id == actor.id) = false := by simp [hself]
  refine ⟨?_, ?_, ?_, ?_⟩
  · intro hhas
    have hhas' : db.tickets.any (fun t => t.project == pid) = true := hhas
    have hres : deleteProject db pid
        = (saveProject db { p0 with isActive := false, status := .ARCHIVED },
           .ok (some { p0 with isActive := false, status := .ARCHIVED })) := by
      simp [deleteProject, hp, hhas']
    rw [hres]
    refine ⟨rfl, ?_⟩
    show _ ∈ (saveProject db _).projects
    simp only [saveProject]
    refine List.mem_map.mpr ⟨p0, hpmem, ?_⟩
    simp
  · intro hhas
    have hhas' : db.tickets.any (fun t => t.project == pid) = false := hhas
    have hres : deleteProject db pid
        = ({ db with projects := db.projects.filter (fun p => !(p.id == pid)) },
           .ok none) := by
      simp [deleteProject, hp, hhas']
    rw [hres]
    refine ⟨rfl, ?_⟩
    intro q hq
    have hfq := List.of_mem_filter hq
    simpa using hfq
  · intro hdata
    have hdata' : (db.projects.any (fun p => p.createdBy == uid) ||
        db.tickets.any (fun t => t.createdBy == uid || t.assignedTo == some uid)) = true :=
      hdata
    have hres : deleteUser db actor uid
        = (saveUser db { u0 with isActive := false },
           .ok (some { u0 with isActive := false })) := by
      simp [deleteUser, hu, hbeq, hdata']
    rw [hres]
    refine ⟨rfl, ?_⟩
    show _ ∈ (saveUser db _).users
    simp only [saveUser]
    refine List.mem_map.mpr ⟨u0, humem, ?_⟩
    simp
  · intro hdata
    have hdata' : (db.projects.any (fun p => p.createdBy == uid) ||
        db.tickets.any (fun t => t.createdBy == uid || t.assignedTo == some uid)) = false :=
      hdata
    have hres : deleteUser db actor uid
        = ({ db with users := db.users.filter (fun u => !(u.id == uid)) }, .ok none) := by
      simp [deleteUser, hu, hbeq, hdata']
    rw [hres]
    refine ⟨rfl, ?_⟩
    intro v hv
    have hfv := List.of_mem_filter hv
    simpa using hfv

/-- Witness for C4: archiving project `P1` (referenced by ticket `T1`)
and hard-deleting user `U3` (no associated data). -/
theorem dependent_data_guard_witness :
    (deleteProject DB1 10).2
      = .ok (some { P1 with isActive := false, status := .ARCHIVED }) ∧
    (deleteUser DB1 U1 3).2 = .ok none := by
  constructor
  · exact ((dependent_data_guard DB1 10 3 U1 P1 U3 (by decide) (by decide)
      (by decide)).1 (by decide)).1
  · exact ((dependent_data_guard DB1 10 3 U1 P1 U3 (by decide) (by decide)
      (by decide)).2.2.2 (by decide)).1

/-- C8: whenever a core write operation (ticket create/update/assign,
project member add) reports a rule violation, the returned store equals
the input store: every validation error is raised before any document is
saved, so nothing is mutated on the error path. -/
theorem validation_precedes_write (db : DB) (actor : User) (inp : CreateTicketInput)
    (nid : TicketId) (id : TicketId) (upd : TicketUpdates) (uid : UserId)
    (pid : ProjectId) (uid2 : UserId) (mrole : MemberRole) (now : Date) :
    (∀ e, (createTicket db actor inp nid now).2 = .error e →
      (createTicket db actor inp nid now).1 = db) ∧
    (∀ e, (updateTicket db actor id upd now).2 = .error e →
      (updateTicket db actor id upd now).1 = db) ∧
    (∀ e, (assignTicket db actor id uid now).2 = .error e →
      (assignTicket db actor id uid now).1 = db) ∧
    (∀ e, (addProjectMember db actor pid uid2 mrole now).2 = .error e →
      (addProjectMember db actor pid uid2 mrole now).1 = db) := by
  refine ⟨?_, ?_, ?_, ?_⟩
  · intro e h
    rcases heq : createTicket db actor inp nid now with ⟨db1, r⟩
    rw [heq] at h
    simp only [createTicket] at heq
    repeat' split at heq
    all_goals simp only [Prod.mk.injEq] at heq
    all_goals obtain ⟨h1, h2⟩ := heq
    all_goals
      first
      | exact h1.symm
      | (rw [← h2] at h; simp at h)
  · intro e h
    rcases heq : updateTicket db actor id upd now with ⟨db1, r⟩
    rw [heq] at h
    simp only [updateTicket] at heq
    repeat' split at heq
    all_goals simp only [Prod.mk.injEq] at heq
    all_goals obtain ⟨h1, h2⟩ := heq
    all_goals
      first
      | exact h1.symm
      | (rw [← h2] at h; simp at h)
  · intro e h
    rcases heq : assignTicket db actor id uid now with ⟨db1, r⟩
    rw [heq] at h
    simp only [assignTicket] at heq
    repeat' split at heq
    all_goals simp only [Prod.mk.injEq] at heq
    all_goals obtain ⟨h1, h2⟩ := heq
    all_goals
      first
      | exact h1.symm
      | (rw [← h2] at h; simp at h)
  · intro e h
    rcases heq : addProjectMember db actor pid uid2 mrole now with ⟨db1, r⟩
    rw [heq] at h
    simp only [addProjectMember] at heq
    repeat' split at heq
    all_goals simp only [Prod.mk.injEq] at heq
    all_goals obtain ⟨h1, h2⟩ := heq
    all_goals
      first
      | exact h1.symm
      | (rw [← h2] at h; simp at h)

/-- Witness for C8: updating a nonexistent ticket id in the fixture
store fails and leaves the store untouched. -/
theorem validation_precedes_write_witness :
    (updateTicket DB1 U2 999 {} 0).1 = DB1 :=
  (validation_precedes_write DB1 U2 { title := "t", description := "d", project := 10 }
      0 999 {} 0 10 0 .VIEWER 0).2.1
    { message := "Ticket not found", statusCode := 404 } (by decide)

end BugTracker
